import Mathlib

/-!
Shallow embedding of `src/static/js/main.js`, the single script of the
`decentralized_cloud_gateway` repository.  The script wires three stateless
behaviours to DOM events: a resource-card search filter, a per-modal cost
calculator, and a periodic metric animation, plus optional Bootstrap
tooltip/popover initialization.

Modelling conventions:
* DOM elements that `querySelector` may fail to find are `Option`s.
* A handler that can throw an uncaught `TypeError` returns its resulting
  state together with a `Bool` flag that is `true` exactly when the
  JavaScript handler would throw; mutations performed before the throwing
  statement are kept, later ones are not, matching `forEach` semantics.
* JavaScript numbers are modelled as `ℚ`.  Every numeric value arising in
  the claims (decimal string inputs, products, the outputs of `toFixed`)
  is exact in binary floating point at the scales involved, so `ℚ` is a
  faithful model of the computations the claims mention.  `NaN` is
  modelled by `Option.none`.
* `parseFloat`, string-to-number coercion (`ToNumber`) and `toFixed` are
  modelled on decimal literals (sign, integer digits, fraction digits);
  the exponent, hexadecimal and `Infinity` forms of the JavaScript
  grammar, which no claim exercises, are not modelled.  Each model is
  split into a purely computational part on characters and a `ℚ`
  valuation.
-/

/-- Greedy split of a maximal leading run of ASCII digits, as matched by
the regex class `\d` and by the number grammars. -/
def takeDigits : List Char → List Char × List Char
  | [] => ([], [])
  | c :: cs =>
    if c.isDigit then
      let r := takeDigits cs
      (c :: r.1, r.2)
    else ([], c :: cs)

/-- Value of a list of ASCII digit characters read in base 10. -/
def digitsToNat (l : List Char) : ℕ :=
  l.foldl (fun a c => 10 * a + (c.toNat - 48)) 0

/-- A parsed decimal literal: sign, integer digits, fraction digits. -/
structure FloatParts where
  neg : Bool
  ip : List Char
  fp : List Char
deriving DecidableEq

/-- The rational value denoted by a parsed decimal literal. -/
def partsVal (p : FloatParts) : ℚ :=
  (if p.neg then -1 else 1) *
    ((digitsToNat p.ip : ℚ) + (digitsToNat p.fp : ℚ) / 10 ^ p.fp.length)

/-- Longest unsigned decimal-literal prefix, as consumed by `parseFloat`:
digit run, then optionally a dot and a further digit run.  Returns the
integer digits, fraction digits and unconsumed remainder; fails (`none`)
when no digit occurs before or after the dot. -/
def parseUnsignedRem (l : List Char) : Option (List Char × List Char × List Char) :=
  let p := takeDigits l
  match p.2 with
  | c :: rest =>
    if c = '.' then
      let f := takeDigits rest
      if p.1.isEmpty && f.1.isEmpty then none else some (p.1, f.1, f.2)
    else if p.1.isEmpty then none else some (p.1, [], c :: rest)
  | [] => if p.1.isEmpty then none else some (p.1, [], [])

/-- Optional leading sign, then an unsigned decimal-literal prefix. -/
def parseSignedParts (l : List Char) : Option FloatParts :=
  match l with
  | c :: rest =>
    if c = '+' then (parseUnsignedRem rest).map (fun p => ⟨false, p.1, p.2.1⟩)
    else if c = '-' then (parseUnsignedRem rest).map (fun p => ⟨true, p.1, p.2.1⟩)
    else (parseUnsignedRem (c :: rest)).map (fun p => ⟨false, p.1, p.2.1⟩)
  | [] => none

/-- Computational part of `parseFloat`: skip leading whitespace, then parse
the longest decimal-literal prefix. -/
def parseFloatParts (s : String) : Option FloatParts :=
  parseSignedParts (s.toList.dropWhile Char.isWhitespace)

/-- Model of JavaScript `parseFloat` on decimal literals; `none` is `NaN`. -/
def parseFloatModel (s : String) : Option ℚ :=
  (parseFloatParts s).map partsVal

/-- Computational part of the `ToNumber` coercion applied to a string by
the `*` operator: trim whitespace on both sides; an empty remainder means
`+0` (represented here by empty digit lists); otherwise the whole
remainder must be one signed decimal literal, else the result is `NaN`
(`none`). -/
def jsToNumberParts (s : String) : Option FloatParts :=
  let t := ((s.toList.dropWhile Char.isWhitespace).reverse.dropWhile
    Char.isWhitespace).reverse
  match t with
  | [] => some ⟨false, [], []⟩
  | c :: rest =>
    let signed : Bool × List Char :=
      if c = '+' then (false, rest)
      else if c = '-' then (true, rest)
      else (false, c :: rest)
    (parseUnsignedRem signed.2).bind
      (fun p => if p.2.2.isEmpty then some ⟨signed.1, p.1, p.2.1⟩ else none)

/-- Model of the `ToNumber` coercion of a string; `none` is `NaN`. -/
def jsToNumber (s : String) : Option ℚ :=
  (jsToNumberParts s).map partsVal

/-- Base-10 digit characters of a natural number, most significant first
(fuel-based so that it is structurally recursive and kernel-reducible). -/
def natReprAux : ℕ → ℕ → List Char
  | 0, _ => []
  | fuel + 1, n =>
    if n < 10 then [Nat.digitChar n]
    else natReprAux fuel (n / 10) ++ [Nat.digitChar (n % 10)]

/-- Base-10 representation of a natural number, most significant first. -/
def natRepr (n : ℕ) : List Char := natReprAux (n + 1) n

/-- The `ℚ`-level part of `Number.prototype.toFixed`: the integer nearest
to `q * 10 ^ d`, ties resolved upward, as ECMA-262 prescribes. -/
def toFixedInt (d : ℕ) (q : ℚ) : ℤ := ⌊q * 10 ^ d + 1 / 2⌋

/-- The string-building part of `toFixed`: print `n / 10 ^ d` with exactly
`d` fraction digits. -/
def toFixedStr (d : ℕ) (n : ℤ) : String :=
  let m := n.natAbs
  let ip := natRepr (m / 10 ^ d)
  let fp := natRepr (m % 10 ^ d)
  let fpP := List.replicate (d - fp.length) '0' ++ fp
  String.mk ((if n < 0 then ['-'] else []) ++ ip ++
    (if d = 0 then [] else '.' :: fpP))

/-- Model of `x.toFixed(d)` for a finite number `x`. -/
def toFixed (d : ℕ) (q : ℚ) : String := toFixedStr d (toFixedInt d q)

/-- Model of JavaScript `String.prototype.includes`: does `sub` occur as a
contiguous substring? -/
def includesList (sub : List Char) : List Char → Bool
  | [] => sub.isEmpty
  | c :: cs => sub.isPrefixOf (c :: cs) || includesList sub cs

/-- `s.includes(sub)` on strings. -/
def jsIncludes (s sub : String) : Bool := includesList sub.toList s.toList


/-- Shape check used for the metric invariant: a non-empty run of digits,
then a dot, then exactly one digit (the format `toFixed(1)` emits for
non-negative numbers). -/
def validDec1Tail : List Char → Bool
  | c :: rest =>
    if c = '.' then
      match rest with
      | [d] => d.isDigit
      | _ => false
    else c.isDigit && validDec1Tail rest
  | [] => false

/-- Is `s` a decimal numeral with exactly one fraction digit? -/
def isValidDecimal1 (s : String) : Bool :=
  match s.toList with
  | c :: rest => c.isDigit && validDec1Tail rest
  | [] => false

/-- A `.resource-card` element: the text of its `.card-title` child (absent
when the card has no such child), its `data-type` attribute (absent when
the attribute is missing, in which case `dataset.type` is `undefined`),
and its current `style.display`. -/
structure Card where
  cardTitle : Option String
  dataType : Option String
  display : String
deriving DecidableEq

/-- The DOM snapshot the script queries on `DOMContentLoaded`. -/
structure Dom where
  searchInput : Option String
  searchButton : Bool
  typeFilter : Option String
  resourceCards : List Card
  hoursInputsCount : ℕ
  metricTexts : List String
  bootstrapLoaded : Bool
  tooltipCount : ℕ
  popoverCount : ℕ
deriving DecidableEq

/-- What the `DOMContentLoaded` handler installs: which filter triggers get
listeners, how many hours inputs get `input` listeners, whether the
10-second metric interval is installed, and how many `Tooltip` / `Popover`
constructors run (`none` when the `bootstrap` global is absent and the
branch is skipped). -/
structure Registrations where
  clickListener : Bool
  keyupListener : Bool
  changeListener : Bool
  inputListeners : ℕ
  metricInterval : Bool
  tooltipsInit : Option ℕ
  popoversInit : Option ℕ
deriving DecidableEq

/-- The registration logic of the `DOMContentLoaded` handler: each
`addEventListener` call is guarded by a truthiness check on the element,
`setInterval(updateResourceMetrics, 10000)` runs iff
`document.querySelector('.resource-metric')` found an element, and the
tooltip/popover loops run iff `typeof bootstrap !== 'undefined'`. -/
def onLoad (dom : Dom) : Registrations :=
  { clickListener := dom.searchButton
    keyupListener := dom.searchInput.isSome
    changeListener := dom.typeFilter.isSome
    inputListeners := dom.hoursInputsCount
    metricInterval := !dom.metricTexts.isEmpty
    tooltipsInit := if dom.bootstrapLoaded then some dom.tooltipCount else none
    popoversInit := if dom.bootstrapLoaded then some dom.popoverCount else none }

/-- The per-card body of `filterResources`, given the lowercased search
term, the raw filter value and the card-title text:
`matchesSearch = cardTitle.toLowerCase().includes(searchTerm)`,
`matchesType = filterType === '' || cardType === filterType`,
then `display` is set to `'block'` or `'none'`. -/
def filterCard (searchTerm filterType title : String) (c : Card) : Card :=
  let matchesSearch := jsIncludes title.toLower searchTerm
  let matchesType := filterType == "" || c.dataType == some filterType
  if matchesSearch && matchesType then { c with display := "block" }
  else { c with display := "none" }

/-- The `resourceCards.forEach` loop of `filterResources`.  A card whose
`.card-title` child is absent makes the loop throw a `TypeError` on
`querySelector('.card-title').textContent`; cards already processed keep
their new `display`, the throwing card and all later ones are untouched.
Returns the resulting card list and whether the loop threw. -/
def filterCardsLoop (st ft : String) : List Card → List Card × Bool
  | [] => ([], false)
  | c :: cs =>
    match c.cardTitle with
    | none => (c :: cs, true)
    | some t =>
      let r := filterCardsLoop st ft cs
      (filterCard st ft t c :: r.1, r.2)

/-- One invocation of `filterResources`.  The function dereferences
`searchInput.value` and `typeFilter.value` without null checks, so a
missing search input or type filter makes it throw before touching any
card.  Returns the resulting DOM and whether an uncaught error was
raised. -/
def runFilterResources (dom : Dom) : Dom × Bool :=
  match dom.searchInput with
  | none => (dom, true)
  | some q =>
    match dom.typeFilter with
    | none => (dom, true)
    | some f =>
      let r := filterCardsLoop q.toLower f dom.resourceCards
      ({ dom with resourceCards := r.1 }, r.2)

/-- If `p` is a prefix of `l`, strip it and return the remainder. -/
def stripLit : List Char → List Char → Option (List Char)
  | [], l => some l
  | _ :: _, [] => none
  | a :: ps, b :: ls => if a = b then stripLit ps ls else none

/-- Attempt of the regex `/Cost: (\d+(?:\.\d+)?) credits\/hour/` at the
start of `l`, returning the characters of capture group 1.  `\d+` is
matched greedily; giving digits back can never help, because the regex
continues with `'.'` or `' '`, neither of which is a digit, and when the
optional fraction group has matched but ` credits/hour` does not follow,
the backtracking alternative without the group needs `' '` at a position
holding `'.'` and also fails. -/
def matchCostAt (l : List Char) : Option (List Char) :=
  match stripLit "Cost: ".toList l with
  | none => none
  | some r0 =>
    let p := takeDigits r0
    if p.1.isEmpty then none
    else
      match p.2 with
      | c :: r1 =>
        if c = '.' then
          let f := takeDigits r1
          if f.1.isEmpty then none
          else if (stripLit " credits/hour".toList f.2).isSome then
            some (p.1 ++ '.' :: f.1)
          else none
        else if (stripLit " credits/hour".toList p.2).isSome then some p.1
        else none
      | [] => none

/-- `text.match(re)` for the cost regex: try the pattern at each position,
left to right, and return the first capture; `none` models the `null`
result. -/
def regexSearchCost : List Char → Option (List Char)
  | [] => matchCostAt []
  | c :: rest =>
    match matchCostAt (c :: rest) with
    | some g => some g
    | none => regexSearchCost rest

/-- A `.modal` container as the hours-input listener sees it: the text of
its `.alert-info` element (absent when `querySelector` returns `null`) and
the text of its `.calculated-cost` element (absent likewise). -/
structure Modal where
  alertInfo : Option String
  calculatedCost : Option String
deriving DecidableEq

/-- The string written into `.calculated-cost`; `none` is the `NaN` total,
which `toFixed` prints as `"NaN"`. -/
def costText : Option ℚ → String
  | none => "Total cost: NaN credits"
  | some t => "Total cost: " ++ toFixed 2 t ++ " credits"

/-- One `input` event on an hours field.  `this.closest('.modal')` failing
is the guarded early return.  `modal.querySelector('.alert-info')` being
`null`, or the regex `match` returning `null`, makes the unguarded chain
`.textContent.match(...)[1]` throw a `TypeError` before anything is
written.  Otherwise `totalCost = this.value * creditRate` and, when a
`.calculated-cost` element exists, its text is replaced.  Returns the
resulting modal and whether the handler threw. -/
def runHoursInput (value : String) (modal : Option Modal) : Option Modal × Bool :=
  match modal with
  | none => (none, false)
  | some m =>
    match m.alertInfo with
    | none => (some m, true)
    | some info =>
      match regexSearchCost info.toList with
      | none => (some m, true)
      | some g =>
        let rate := parseFloatModel (String.mk g)
        let total : Option ℚ :=
          match jsToNumber value, rate with
          | some h, some r => some (h * r)
          | _, _ => none
        match m.calculatedCost with
        | none => (some m, false)
        | some _ => (some { m with calculatedCost := some (costText total) }, false)

/-- One tick of `updateResourceMetrics` on one `.resource-metric` element:
`parseFloat` the text, add `(rand - 0.5) * 10`, clamp at `0` with
`Math.max`, print with `toFixed(1)`.  `rand` is the `Math.random()` draw;
an unparsable current text gives `NaN` all the way through, which prints
as `"NaN"`. -/
def updateMetric (rand : ℚ) (text : String) : String :=
  match parseFloatModel text with
  | none => "NaN"
  | some v => toFixed 1 (max 0 (v + (rand - 1 / 2) * 10))

/-- The metric text after a sequence of ticks with the given random
draws. -/
def iterateMetric (rands : List ℚ) (text : String) : String :=
  match rands with
  | [] => text
  | r :: rs => iterateMetric rs (updateMetric r text)

/-- The ten ASCII digit characters. -/
def digitChars : List Char := ['0', '1', '2', '3', '4', '5', '6', '7', '8', '9']

lemma digitChar_mem (n : ℕ) (h : n < 10) : Nat.digitChar n ∈ digitChars := by
  interval_cases n <;> decide

lemma digitChars_facts {c : Char} (h : c ∈ digitChars) :
    c.isDigit = true ∧ c ≠ '.' ∧ c ≠ '+' ∧ c ≠ '-' ∧ c.isWhitespace = false := by
  fin_cases h <;> exact ⟨by decide, by decide, by decide, by decide, by decide⟩

lemma natReprAux_mem : ∀ fuel n, ∀ c ∈ natReprAux fuel n, c ∈ digitChars := by
  intro fuel
  induction fuel with
  | zero => intro n c hc; simp [natReprAux] at hc
  | succ fuel ih =>
    intro n c hc
    by_cases h : n < 10
    · simp [natReprAux, h] at hc
      subst hc
      exact digitChar_mem n h
    · simp [natReprAux, h] at hc
      rcases hc with hc | hc
      · exact ih _ _ hc
      · subst hc
        exact digitChar_mem _ (Nat.mod_lt _ (by norm_num))

lemma natRepr_mem {n : ℕ} {c : Char} (hc : c ∈ natRepr n) : c ∈ digitChars :=
  natReprAux_mem _ _ c hc

lemma natRepr_ne_nil (n : ℕ) : natRepr n ≠ [] := by
  unfold natRepr natReprAux
  by_cases h : n < 10 <;> simp [h]

lemma natRepr_lt_ten {n : ℕ} (h : n < 10) : natRepr n = [Nat.digitChar n] := by
  simp [natRepr, natReprAux, h]

lemma validDec1Tail_append {dl : List Char} (h : ∀ c ∈ dl, c ∈ digitChars)
    {dc : Char} (hdc : dc ∈ digitChars) :
    validDec1Tail (dl ++ ['.', dc]) = true := by
  induction dl with
  | nil => simp [validDec1Tail, (digitChars_facts hdc).1]
  | cons c cs ih =>
    have hc := digitChars_facts (h c (by simp))
    simp [validDec1Tail, hc.2.1, hc.1, ih (fun d hd => h d (by simp [hd]))]

lemma takeDigits_append {l₁ l₂ : List Char} (h : ∀ c ∈ l₁, c ∈ digitChars)
    (h2 : ∀ c, l₂.head? = some c → c.isDigit = false) :
    takeDigits (l₁ ++ l₂) = (l₁, l₂) := by
  induction l₁ with
  | nil =>
    cases l₂ with
    | nil => rfl
    | cons c cs => simp [takeDigits, h2 c rfl]
  | cons c cs ih =>
    have hc := digitChars_facts (h c (by simp))
    simp [takeDigits, hc.1, ih (fun d hd => h d (by simp [hd]))]

lemma toList_mk (l : List Char) : (String.mk l).toList = l := rfl

lemma toFixedInt_eq {d : ℕ} {q : ℚ} {n : ℤ} (h1 : (n : ℚ) ≤ q * 10 ^ d + 1 / 2)
    (h2 : q * 10 ^ d + 1 / 2 < (n : ℚ) + 1) : toFixedInt d q = n := by
  unfold toFixedInt
  rw [Int.floor_eq_iff]
  exact ⟨h1, h2⟩

lemma toFixedInt_nonneg {d : ℕ} {q : ℚ} (hq : 0 ≤ q) : 0 ≤ toFixedInt d q := by
  unfold toFixedInt
  rw [Int.floor_nonneg]
  have h : (0 : ℚ) ≤ q * 10 ^ d := mul_nonneg hq (by positivity)
  linarith

lemma toFixedStr_one_list {n : ℤ} (hn : 0 ≤ n) :
    (toFixedStr 1 n).toList =
      natRepr (n.natAbs / 10) ++ ['.', Nat.digitChar (n.natAbs % 10)] := by
  unfold toFixedStr
  have h1 : ¬ n < 0 := not_lt.mpr hn
  have h2 : n.natAbs % 10 < 10 := Nat.mod_lt _ (by norm_num)
  simp [h1, natRepr_lt_ten h2, toList_mk]

lemma toFixed1_valid {q : ℚ} (hq : 0 ≤ q) : isValidDecimal1 (toFixed 1 q) = true := by
  have hn := toFixedInt_nonneg (d := 1) hq
  unfold toFixed isValidDecimal1
  rw [toFixedStr_one_list hn]
  cases hrep : natRepr ((toFixedInt 1 q).natAbs / 10) with
  | nil => exact absurd hrep (natRepr_ne_nil _)
  | cons c rest =>
    have hmem : ∀ x ∈ c :: rest, x ∈ digitChars := by
      rw [← hrep]; intro x hx; exact natRepr_mem hx
    have hc := digitChars_facts (hmem c (by simp))
    have hdc : Nat.digitChar ((toFixedInt 1 q).natAbs % 10) ∈ digitChars :=
      digitChar_mem _ (Nat.mod_lt _ (by norm_num))
    simp [hc.1]
    exact validDec1Tail_append (fun d hd => hmem d (by simp [hd])) hdc

lemma toFixed1_parses {q : ℚ} (hq : 0 ≤ q) :
    (parseFloatParts (toFixed 1 q)).isSome = true := by
  have hn := toFixedInt_nonneg (d := 1) hq
  unfold toFixed parseFloatParts
  rw [toFixedStr_one_list hn]
  cases hrep : natRepr ((toFixedInt 1 q).natAbs / 10) with
  | nil => exact absurd hrep (natRepr_ne_nil _)
  | cons c rest =>
    have hmem : ∀ x ∈ c :: rest, x ∈ digitChars := by
      rw [← hrep]; intro x hx; exact natRepr_mem hx
    have hc := digitChars_facts (hmem c (by simp))
    have hdc := digitChars_facts
      (digitChar_mem ((toFixedInt 1 q).natAbs % 10) (Nat.mod_lt _ (by norm_num)))
    have htake : takeDigits ((c :: rest) ++ ['.', Nat.digitChar ((toFixedInt 1 q).natAbs % 10)]) =
        (c :: rest, ['.', Nat.digitChar ((toFixedInt 1 q).natAbs % 10)]) :=
      takeDigits_append hmem (fun x hx => by
        simp at hx
        subst hx
        decide)
    have hdrop : ((c :: rest) ++ ['.', Nat.digitChar ((toFixedInt 1 q).natAbs % 10)]).dropWhile
        Char.isWhitespace = (c :: rest) ++ ['.', Nat.digitChar ((toFixedInt 1 q).natAbs % 10)] := by
      simp [List.dropWhile_cons, hc.2.2.2.2]
    rw [hdrop]
    simp only [parseSignedParts, List.cons_append]
    rw [if_neg (by simpa using hc.2.2.1), if_neg (by simpa using hc.2.2.2.1)]
    simp only [parseUnsignedRem, ← List.cons_append, htake]
    simp [takeDigits, hdc.1]

lemma filterCard_display (st ft title : String) (c : Card) :
    filterCard st ft title c =
      { c with display :=
          if jsIncludes title.toLower st && (ft == "" || c.dataType == some ft)
          then "block" else "none" } := by
  unfold filterCard
  cases h : jsIncludes title.toLower st && (ft == "" || c.dataType == some ft) <;>
    simp [h]

lemma filterCard_cardTitle (st ft title : String) (c : Card) :
    (filterCard st ft title c).cardTitle = c.cardTitle := by
  rw [filterCard_display]

lemma filterCard_stable (st ft title : String) (c : Card) :
    filterCard st ft title (filterCard st ft title c) = filterCard st ft title c := by
  simp [filterCard_display]

lemma filterCardsLoop_all_titled (st ft : String) (cs : List Card)
    (h : ∀ c ∈ cs, c.cardTitle.isSome) :
    filterCardsLoop st ft cs =
      (cs.map (fun c => filterCard st ft (c.cardTitle.getD "") c), false) := by
  induction cs with
  | nil => rfl
  | cons c cs ih =>
    have hc := h c (by simp)
    cases hh : c.cardTitle with
    | none => rw [hh] at hc; simp at hc
    | some t =>
      simp [filterCardsLoop, hh, ih (fun d hd => h d (by simp [hd]))]

lemma filterCardsLoop_idem (st ft : String) (cs : List Card) :
    filterCardsLoop st ft (filterCardsLoop st ft cs).1 = filterCardsLoop st ft cs := by
  induction cs with
  | nil => rfl
  | cons c cs ih =>
    cases hh : c.cardTitle with
    | none => simp [filterCardsLoop, hh]
    | some t =>
      simp only [filterCardsLoop, hh]
      simp only [filterCardsLoop, filterCard_cardTitle, hh]
      simp [filterCard_stable, ih]

lemma metric_invariant_aux (rands : List ℚ) : ∀ (r : ℚ) (text : String),
    (parseFloatParts text).isSome = true →
    isValidDecimal1 (iterateMetric (r :: rands) text) = true := by
  induction rands with
  | nil =>
    intro r text hp
    obtain ⟨p, hp2⟩ := Option.isSome_iff_exists.mp hp
    have hupd : updateMetric r text = toFixed 1 (max 0 (partsVal p + (r - 1 / 2) * 10)) := by
      simp [updateMetric, parseFloatModel, hp2]
    show isValidDecimal1 (updateMetric r text) = true
    rw [hupd]
    exact toFixed1_valid (le_max_left _ _)
  | cons r2 rs ih =>
    intro r text hp
    obtain ⟨p, hp2⟩ := Option.isSome_iff_exists.mp hp
    have hupd : updateMetric r text = toFixed 1 (max 0 (partsVal p + (r - 1 / 2) * 10)) := by
      simp [updateMetric, parseFloatModel, hp2]
    show isValidDecimal1 (iterateMetric (r2 :: rs) (updateMetric r text)) = true
    exact ih r2 (updateMetric r text) (by rw [hupd]; exact toFixed1_parses (le_max_left _ _))

/-- C1: for every card, search text Q and selected category F, after
`filterResources` runs the card's display is `block` iff its title
contains Q as a substring case-insensitively and (F is empty or the card's
`data-type` equals F), and `none` otherwise.  Stated under the conditions
in which the filter runs to completion: search input and type filter
present, every card with a `.card-title` child. -/
theorem resource_filter_visibility (dom : Dom) (q f : String)
    (hq : dom.searchInput = some q) (hf : dom.typeFilter = some f)
    (ht : ∀ c ∈ dom.resourceCards, c.cardTitle.isSome) :
    (runFilterResources dom).2 = false ∧
    (runFilterResources dom).1.resourceCards =
      dom.resourceCards.map (fun c =>
        { c with display :=
            if jsIncludes (c.cardTitle.getD "").toLower q.toLower &&
                (f == "" || c.dataType == some f)
            then "block" else "none" }) := by
  unfold runFilterResources
  simp only [hq, hf]
  rw [filterCardsLoop_all_titled _ _ _ ht]
  refine ⟨rfl, ?_⟩
  simp [filterCard_display]

/-- Concrete instance of C1: a mixed card list filtered with query "GP"
and category "compute". -/
def domC1 : Dom :=
  { searchInput := some "GP", searchButton := true, typeFilter := some "compute"
    resourceCards := [⟨some "GPU Server", some "compute", ""⟩,
      ⟨some "Disk Array", some "storage", ""⟩,
      ⟨some "gpu cluster", some "hpc", ""⟩]
    hoursInputsCount := 0, metricTexts := [], bootstrapLoaded := false
    tooltipCount := 0, popoverCount := 0 }

/-- Witness for C1 at a concrete DOM. -/
theorem resource_filter_visibility_witness :
    domC1.searchInput = some "GP" ∧ domC1.typeFilter = some "compute" ∧
    (∀ c ∈ domC1.resourceCards, c.cardTitle.isSome) ∧
    ((runFilterResources domC1).2 = false ∧
     (runFilterResources domC1).1.resourceCards =
       domC1.resourceCards.map (fun c =>
         { c with display :=
             if jsIncludes (c.cardTitle.getD "").toLower "GP".toLower &&
                 ("compute" == "" || c.dataType == some "compute")
             then "block" else "none" })) :=
  ⟨rfl, rfl, by decide,
    resource_filter_visibility domC1 "GP" "compute" rfl rfl (by decide)⟩

/-- C6: `filterResources` is idempotent: running it twice on the same DOM
(same query and category) leaves every card's visibility as after one
run.  This holds for every DOM snapshot, including the error cases, since
the filter reads only fields it never writes. -/
theorem filter_idempotent (dom : Dom) :
    runFilterResources (runFilterResources dom).1 = runFilterResources dom := by
  cases hq : dom.searchInput with
  | none =>
    have h1 : runFilterResources dom = (dom, true) := by
      simp [runFilterResources, hq]
    simp [h1]
  | some q =>
    cases hf : dom.typeFilter with
    | none =>
      have h1 : runFilterResources dom = (dom, true) := by
        simp [runFilterResources, hq, hf]
      simp [h1]
    | some f =>
      have h1 : runFilterResources dom =
          ({ dom with resourceCards := (filterCardsLoop q.toLower f dom.resourceCards).1 },
           (filterCardsLoop q.toLower f dom.resourceCards).2) := by
        simp [runFilterResources, hq, hf]
      rw [h1]
      simp [runFilterResources, hq, hf, filterCardsLoop_idem]

/-- A DOM with a search button but no search input: the click listener is
registered, yet `filterResources` dereferences the missing input. -/
def domC5 : Dom :=
  { searchInput := none, searchButton := true, typeFilter := some ""
    resourceCards := [], hoursInputsCount := 0, metricTexts := []
    bootstrapLoaded := false, tooltipCount := 0, popoverCount := 0 }

/-- C5 counterexample: with the search button present and the search input
absent, the click trigger is enabled, and triggering the filter raises an
uncaught error (`searchInput.value` on `null`), so it is not the case that
every absent element merely disables its trigger. -/
theorem filter_guard_counterexample :
    (onLoad domC5).clickListener = true ∧ (runFilterResources domC5).2 = true := by
  exact ⟨rfl, rfl⟩

/-- C5 (amended): the null checks guard only listener registration — each
absent trigger element disables exactly its own trigger — while
`filterResources` itself is unguarded; triggering it raises no error
provided the search input, the category selector and every card's
`.card-title` child are present. -/
theorem filter_no_error_when_elements_present (dom : Dom) (q f : String)
    (hq : dom.searchInput = some q) (hf : dom.typeFilter = some f)
    (ht : ∀ c ∈ dom.resourceCards, c.cardTitle.isSome) :
    ((onLoad dom).clickListener = dom.searchButton ∧
     (onLoad dom).keyupListener = dom.searchInput.isSome ∧
     (onLoad dom).changeListener = dom.typeFilter.isSome) ∧
    (runFilterResources dom).2 = false := by
  refine ⟨⟨rfl, rfl, rfl⟩, ?_⟩
  unfold runFilterResources
  simp only [hq, hf]
  rw [filterCardsLoop_all_titled _ _ _ ht]

/-- A fully populated filter DOM for the C5 witness. -/
def domC5w : Dom :=
  { searchInput := some "disk", searchButton := true, typeFilter := some ""
    resourceCards := [⟨some "Disk Array", some "storage", ""⟩]
    hoursInputsCount := 0, metricTexts := [], bootstrapLoaded := false
    tooltipCount := 0, popoverCount := 0 }

/-- Witness for the amended C5 at a concrete DOM. -/
theorem filter_no_error_witness :
    domC5w.searchInput = some "disk" ∧ domC5w.typeFilter = some "" ∧
    (∀ c ∈ domC5w.resourceCards, c.cardTitle.isSome) ∧
    (((onLoad domC5w).clickListener = domC5w.searchButton ∧
      (onLoad domC5w).keyupListener = domC5w.searchInput.isSome ∧
      (onLoad domC5w).changeListener = domC5w.typeFilter.isSome) ∧
     (runFilterResources domC5w).2 = false) :=
  ⟨rfl, rfl, by decide,
    filter_no_error_when_elements_present domC5w "disk" "" rfl rfl (by decide)⟩

/-- C2: on an input event on an hours field whose modal's info text
matches `Cost: <rate> credits/hour` and whose modal has a
`.calculated-cost` element, the element's text becomes
`Total cost: <hours * rate to 2 decimals> credits`, where `hours` is the
numeric value of the input. -/
theorem hours_cost_update (m : Modal) (info : String) (g : List Char)
    (rate h : ℚ) (value old : String)
    (hi : m.alertInfo = some info)
    (hg : regexSearchCost info.toList = some g)
    (hr : parseFloatModel (String.mk g) = some rate)
    (hc : m.calculatedCost = some old)
    (hv : jsToNumber value = some h) :
    runHoursInput value (some m) =
      (some
        { m with
            calculatedCost :=
              some ("Total cost: " ++ toFixed 2 (h * rate) ++ " credits") },
        false) := by
  have hg2 : regexSearchCost info.data = some g := hg
  unfold runHoursInput
  simp [hi, hg2, hr, hc, hv, costText]

/-- Modal for the C2 witness, first scenario: rate text
`Cost: 4 credits/hour`. -/
def modalC2a : Modal := ⟨some "Cost: 4 credits/hour", some ""⟩

/-- Modal for the C2 witness, second scenario: rate text
`Cost: 2.5 credits/hour`. -/
def modalC2b : Modal := ⟨some "Cost: 2.5 credits/hour", some ""⟩

/-- Witness for C2: hours 2 at rate 4 yields `Total cost: 8.00 credits`,
and hours 3 at rate 2.5 yields `Total cost: 7.50 credits`. -/
theorem hours_cost_update_witness :
    (jsToNumber "2" = some 2 ∧
     runHoursInput "2" (some modalC2a) =
       (some { modalC2a with calculatedCost := some "Total cost: 8.00 credits" },
        false)) ∧
    (jsToNumber "3" = some 3 ∧
     runHoursInput "3" (some modalC2b) =
       (some { modalC2b with calculatedCost := some "Total cost: 7.50 credits" },
        false)) := by
  have hn2 : jsToNumber "2" = some 2 := by
    have e1 : jsToNumberParts "2" = some ⟨false, ['2'], []⟩ := by decide
    have e2 : digitsToNat ['2'] = 2 := by decide
    simp [jsToNumber, e1, partsVal, e2, digitsToNat]
  have hn3 : jsToNumber "3" = some 3 := by
    have e1 : jsToNumberParts "3" = some ⟨false, ['3'], []⟩ := by decide
    have e2 : digitsToNat ['3'] = 3 := by decide
    simp [jsToNumber, e1, partsVal, e2, digitsToNat]
  have hr4 : parseFloatModel (String.mk ['4']) = some 4 := by
    have e1 : parseFloatParts (String.mk ['4']) = some ⟨false, ['4'], []⟩ := by decide
    have e2 : digitsToNat ['4'] = 4 := by decide
    simp [parseFloatModel, e1, partsVal, e2, digitsToNat]
  have hr25 : parseFloatModel (String.mk ['2', '.', '5']) = some (5 / 2) := by
    have e1 : parseFloatParts (String.mk ['2', '.', '5']) =
        some ⟨false, ['2'], ['5']⟩ := by decide
    have e2 : digitsToNat ['2'] = 2 := by decide
    have e3 : digitsToNat ['5'] = 5 := by decide
    simp [parseFloatModel, e1, partsVal, e2, e3]
    norm_num
  have ha := hours_cost_update modalC2a "Cost: 4 credits/hour" ['4'] 4 2 "2" ""
    rfl (by decide) hr4 rfl hn2
  have hb := hours_cost_update modalC2b "Cost: 2.5 credits/hour" ['2', '.', '5']
    (5 / 2) 3 "3" "" rfl (by decide) hr25 rfl hn3
  have ta : toFixed 2 ((2 : ℚ) * 4) = "8.00" := by
    have e : toFixedInt 2 ((2 : ℚ) * 4) = 800 :=
      toFixedInt_eq (by norm_num) (by norm_num)
    unfold toFixed
    rw [e]
    decide
  have tb : toFixed 2 ((3 : ℚ) * (5 / 2)) = "7.50" := by
    have e : toFixedInt 2 ((3 : ℚ) * (5 / 2)) = 750 :=
      toFixedInt_eq (by norm_num) (by norm_num)
    unfold toFixed
    rw [e]
    decide
  rw [ta] at ha
  rw [tb] at hb
  have sa : ("Total cost: " ++ "8.00" ++ " credits" : String) =
      "Total cost: 8.00 credits" := by decide
  have sb : ("Total cost: " ++ "7.50" ++ " credits" : String) =
      "Total cost: 7.50 credits" := by decide
  rw [sa] at ha
  rw [sb] at hb
  exact ⟨⟨hn2, ha⟩, ⟨hn3, hb⟩⟩

/-- C3: when the modal's `.alert-info` text does not match the pattern
`Cost: <number> credits/hour`, the hours-input handler throws an uncaught
`TypeError` (indexing `[1]` on a `null` match) and the modal — in
particular the `.calculated-cost` text — is left unchanged. -/
theorem hours_no_match (m : Modal) (info value : String)
    (hi : m.alertInfo = some info)
    (hm : regexSearchCost info.toList = none) :
    runHoursInput value (some m) = (some m, true) := by
  have hm2 : regexSearchCost info.data = none := hm
  unfold runHoursInput
  simp [hi, hm2]

/-- Modal for the C3 witness: a rate sentence in the wrong format. -/
def modalC3 : Modal := ⟨some "Rate: 4 credits", some "unchanged"⟩

/-- Witness for C3 at a concrete modal. -/
theorem hours_no_match_witness :
    modalC3.alertInfo = some "Rate: 4 credits" ∧
    regexSearchCost "Rate: 4 credits".toList = none ∧
    runHoursInput "5" (some modalC3) = (some modalC3, true) :=
  ⟨rfl, by decide, hours_no_match modalC3 "Rate: 4 credits" "5" rfl (by decide)⟩

/-- C10: an input event with the empty string as hours value (a cleared
field) coerces to the number 0 in `this.value * creditRate`, so with a
well-formed rate sentence and a present output element the output text
becomes `Total cost: 0.00 credits`. -/
theorem hours_empty_input (m : Modal) (info : String) (g : List Char)
    (rate : ℚ) (old : String)
    (hi : m.alertInfo = some info)
    (hg : regexSearchCost info.toList = some g)
    (hr : parseFloatModel (String.mk g) = some rate)
    (hc : m.calculatedCost = some old) :
    runHoursInput "" (some m) =
      (some { m with calculatedCost := some "Total cost: 0.00 credits" }, false) := by
  have hv : jsToNumber "" = some 0 := by
    have e1 : jsToNumberParts "" = some ⟨false, [], []⟩ := by decide
    simp [jsToNumber, e1, partsVal, digitsToNat]
  have ht : toFixed 2 (0 : ℚ) = "0.00" := by
    have e : toFixedInt 2 (0 : ℚ) = 0 := toFixedInt_eq (by norm_num) (by norm_num)
    unfold toFixed
    rw [e]
    decide
  have hs : ("Total cost: " ++ "0.00" ++ " credits" : String) =
      "Total cost: 0.00 credits" := by decide
  have hg2 : regexSearchCost info.data = some g := hg
  unfold runHoursInput
  simp [hi, hg2, hr, hc, hv, costText, ht, hs]

/-- Modal for the C10 witness. -/
def modalC10 : Modal := ⟨some "Cost: 4 credits/hour", some "old text"⟩

/-- Witness for C10 at a concrete modal. -/
theorem hours_empty_input_witness :
    modalC10.alertInfo = some "Cost: 4 credits/hour" ∧
    regexSearchCost "Cost: 4 credits/hour".toList = some ['4'] ∧
    runHoursInput "" (some modalC10) =
      (some { modalC10 with calculatedCost := some "Total cost: 0.00 credits" },
       false) := by
  have hr4 : parseFloatModel (String.mk ['4']) = some 4 := by
    have e1 : parseFloatParts (String.mk ['4']) = some ⟨false, ['4'], []⟩ := by decide
    have e2 : digitsToNat ['4'] = 4 := by decide
    simp [parseFloatModel, e1, partsVal, e2, digitsToNat]
  exact ⟨rfl, by decide,
    hours_empty_input modalC10 "Cost: 4 credits/hour" ['4'] 4 "old text"
      rfl (by decide) hr4 rfl⟩

/-- C4: on a metric tick, for an element whose text parses as the decimal
v, the new text is `max(0, v + delta)` formatted to one decimal place,
where `delta = (rand - 0.5) * 10` lies in `[-5, 5]` for any
`rand ∈ [0, 1)`; and for `v = 0` and any negative delta the new text is
`0.0`. -/
theorem metric_update_formula (rand : ℚ) (text : String) (v : ℚ)
    (h0 : 0 ≤ rand) (h1 : rand < 1) (hv : parseFloatModel text = some v) :
    updateMetric rand text = toFixed 1 (max 0 (v + (rand - 1 / 2) * 10)) ∧
    -5 ≤ (rand - 1 / 2) * 10 ∧ (rand - 1 / 2) * 10 ≤ 5 ∧
    ((rand - 1 / 2) * 10 < 0 → v = 0 → updateMetric rand text = "0.0") := by
  have hupd : updateMetric rand text = toFixed 1 (max 0 (v + (rand - 1 / 2) * 10)) := by
    simp [updateMetric, hv]
  refine ⟨hupd, by linarith, by linarith, ?_⟩
  intro hneg hv0
  have hmax : max (0 : ℚ) ((rand - 1 / 2) * 10) = 0 := max_eq_left (le_of_lt hneg)
  have h00 : toFixedInt 1 (0 : ℚ) = 0 := toFixedInt_eq (by norm_num) (by norm_num)
  have hz : toFixed 1 (0 : ℚ) = "0.0" := by
    unfold toFixed
    rw [h00]
    decide
  rw [hupd, hv0, zero_add, hmax, hz]

/-- Witness for C4: one tick with `rand = 3/4` on text `2.0`, and one tick
with `rand = 1/4` (negative delta) on text `0.0`, which yields `0.0`. -/
theorem metric_update_formula_witness :
    ((0 : ℚ) ≤ 3 / 4 ∧ (3 / 4 : ℚ) < 1 ∧ parseFloatModel "2.0" = some 2 ∧
     updateMetric (3 / 4) "2.0" =
       toFixed 1 (max 0 (2 + ((3 / 4 : ℚ) - 1 / 2) * 10))) ∧
    ((0 : ℚ) ≤ 1 / 4 ∧ (1 / 4 : ℚ) < 1 ∧ parseFloatModel "0.0" = some 0 ∧
     updateMetric (1 / 4) "0.0" = "0.0") := by
  have hv2 : parseFloatModel "2.0" = some 2 := by
    have e1 : parseFloatParts "2.0" = some ⟨false, ['2'], ['0']⟩ := by decide
    have e2 : digitsToNat ['2'] = 2 := by decide
    have e3 : digitsToNat ['0'] = 0 := by decide
    simp [parseFloatModel, e1, partsVal, e2, e3]
  have hv0 : parseFloatModel "0.0" = some 0 := by
    have e1 : parseFloatParts "0.0" = some ⟨false, ['0'], ['0']⟩ := by decide
    have e3 : digitsToNat ['0'] = 0 := by decide
    simp [parseFloatModel, e1, partsVal, e3]
  refine ⟨⟨by norm_num, by norm_num, hv2,
      (metric_update_formula (3 / 4) "2.0" 2 (by norm_num) (by norm_num) hv2).1⟩,
    ⟨by norm_num, by norm_num, hv0, ?_⟩⟩
  exact (metric_update_formula (1 / 4) "0.0" 0 (by norm_num) (by norm_num)
    hv0).2.2.2 (by norm_num) rfl

/-- C7 counterexample: the invariant does not hold from every initial
metric text.  From the initial text `abc`, which `parseFloat` cannot
parse, one tick (with the legal draw `rand = 1/2`) writes `NaN`, which is
not a decimal with one fraction digit. -/
theorem metric_invariant_counterexample :
    (0 : ℚ) ≤ 1 / 2 ∧ (1 / 2 : ℚ) < 1 ∧
    iterateMetric [(1 : ℚ) / 2] "abc" = "NaN" ∧
    isValidDecimal1 "NaN" = false := by
  refine ⟨by norm_num, by norm_num, ?_, by decide⟩
  have h1 : parseFloatParts "abc" = none := by decide
  simp [iterateMetric, updateMetric, parseFloatModel, h1]

/-- C7 (amended): after every tick of any non-empty tick sequence, every
metric element's text is a valid decimal with one fraction digit,
provided the element's initial text parses under `parseFloat`; an
unparsable initial text instead yields the non-decimal text `NaN` from
the first tick on. -/
theorem metric_invariant (r : ℚ) (rands : List ℚ) (text : String)
    (hp : (parseFloatModel text).isSome = true) :
    isValidDecimal1 (iterateMetric (r :: rands) text) = true := by
  apply metric_invariant_aux
  simpa [parseFloatModel] using hp

/-- Witness for the amended C7: two ticks from the parsable text `7`. -/
theorem metric_invariant_witness :
    (parseFloatModel "7").isSome = true ∧
    isValidDecimal1 (iterateMetric [(1 : ℚ) / 2, 1 / 4] "7") = true := by
  have e1 : parseFloatParts "7" = some ⟨false, ['7'], []⟩ := by decide
  have hp : (parseFloatModel "7").isSome = true := by
    simp [parseFloatModel, e1]
  exact ⟨hp, metric_invariant (1 / 2) [1 / 4] "7" hp⟩

/-- C8: the 10-second metric timer is installed iff at least one
`.resource-metric` element exists at load; with no metric element the
interval is never installed, so no metric update ever occurs. -/
theorem metric_timer_installed (dom : Dom) :
    ((onLoad dom).metricInterval = true ↔ dom.metricTexts ≠ []) ∧
    (dom.metricTexts = [] → (onLoad dom).metricInterval = false) := by
  cases h : dom.metricTexts <;> simp [onLoad, h]

/-- Dashboard DOM with one metric element, for the C8 witness. -/
def domC8 : Dom :=
  { searchInput := none, searchButton := false, typeFilter := none
    resourceCards := [], hoursInputsCount := 0, metricTexts := ["42.0"]
    bootstrapLoaded := false, tooltipCount := 0, popoverCount := 0 }

/-- DOM with no metric element, for the C8 witness. -/
def domC8e : Dom :=
  { searchInput := none, searchButton := false, typeFilter := none
    resourceCards := [], hoursInputsCount := 0, metricTexts := []
    bootstrapLoaded := false, tooltipCount := 0, popoverCount := 0 }

/-- Witness for C8: the timer is installed on the dashboard DOM and not on
the metric-free DOM. -/
theorem metric_timer_installed_witness :
    (onLoad domC8).metricInterval = true ∧ (onLoad domC8e).metricInterval = false :=
  ⟨(metric_timer_installed domC8).1.mpr (by decide),
   (metric_timer_installed domC8e).2 rfl⟩

/-- C9: when the `bootstrap` global is absent at load, tooltip and popover
initialization is skipped entirely (and no error is raised — the branch
is simply not taken); when it is present, a `Tooltip` constructor runs on
every element flagged for tooltips and a `Popover` constructor on every
element flagged for popovers. -/
theorem bootstrap_init_guard (dom : Dom) :
    (dom.bootstrapLoaded = false →
      (onLoad dom).tooltipsInit = none ∧ (onLoad dom).popoversInit = none) ∧
    (dom.bootstrapLoaded = true →
      (onLoad dom).tooltipsInit = some dom.tooltipCount ∧
      (onLoad dom).popoversInit = some dom.popoverCount) := by
  constructor <;> intro h <;> simp [onLoad, h]

/-- DOM without the bootstrap global, for the C9 witness. -/
def domC9a : Dom :=
  { searchInput := none, searchButton := false, typeFilter := none
    resourceCards := [], hoursInputsCount := 0, metricTexts := []
    bootstrapLoaded := false, tooltipCount := 2, popoverCount := 3 }

/-- DOM with the bootstrap global, for the C9 witness. -/
def domC9b : Dom :=
  { searchInput := none, searchButton := false, typeFilter := none
    resourceCards := [], hoursInputsCount := 0, metricTexts := []
    bootstrapLoaded := true, tooltipCount := 2, popoverCount := 3 }

/-- Witness for C9 at concrete DOMs with and without the toolkit. -/
theorem bootstrap_init_guard_witness :
    ((onLoad domC9a).tooltipsInit = none ∧ (onLoad domC9a).popoversInit = none) ∧
    ((onLoad domC9b).tooltipsInit = some 2 ∧ (onLoad domC9b).popoversInit = some 3) :=
  ⟨(bootstrap_init_guard domC9a).1 rfl, (bootstrap_init_guard domC9b).2 rfl⟩

/-- DOM for the C6 witness. -/
def domC6 : Dom :=
  { searchInput := some "server", searchButton := true, typeFilter := some "compute"
    resourceCards := [⟨some "GPU Server", some "compute", ""⟩,
      ⟨some "Disk Array", some "storage", "block"⟩]
    hoursInputsCount := 0, metricTexts := [], bootstrapLoaded := false
    tooltipCount := 0, popoverCount := 0 }

/-- Witness for C6 at a concrete DOM. -/
theorem filter_idempotent_witness :
    runFilterResources (runFilterResources domC6).1 = runFilterResources domC6 :=
  filter_idempotent domC6
